import Mathlib

/-!
Verification of the agentbeats terminal-bench / tau-bench core:

* `TaskMCPServer._execute_bash_command` and its `call_tool` dispatcher
  (src/scenarios/terminal_bench/src/green_agent/task_mcp_server.py)
* the port allocator and readiness-wait loop of `A2AAdapter.perform_task`
  (src/scenarios/terminal_bench/src/adapters/a2a_adapter.py)
* the conversation driver `ask_agent_to_solve`
  (src/agentify-example-tau-bench-main/src/green_agent/agent.py)
* the solver-side tool-call loop `solve_task_with_llm_and_mcp`
  (src/scenarios/terminal_bench/white_agent/white_agent_helpers.py)

Python values appearing in `arguments: dict[str, Any]` are modelled by `PyVal`;
the OS/docker spawn path is an oracle `SpawnOutcome` (what `create_subprocess_exec`
plus `communicate` did: either a completed process or a raised exception).
-/

/-- A Python value as it can appear in tool-call `arguments` (and in the result
dict field `command`, which is typed `Any` at runtime). -/
inductive PyVal where
  | vstr (s : String)
  | vint (n : Int)
  | vbool (b : Bool)
  | vnone
  deriving DecidableEq, Repr

/-- Python truthiness for the `PyVal` fragment (`if not command:`). -/
def PyVal.truthy : PyVal → Bool
  | .vstr s => s ≠ ""
  | .vint n => n ≠ 0
  | .vbool b => b
  | .vnone => false

/-- `dict.get(key)`: the bound value, or `None` when the key is absent. -/
def pyGet (args : List (String × PyVal)) (k : String) : PyVal :=
  match args.lookup k with
  | some v => v
  | none => .vnone

/-- Outcome of the spawn/wait path of `_execute_bash_command`
(`asyncio.create_subprocess_exec` + `process.communicate()`): either the
process completed with a return code and decoded stdout/stderr, or some
exception was raised with message text `msg`. -/
inductive SpawnOutcome where
  | completed (returncode : Int) (stdout stderr : String)
  | raised (msg : String)
  deriving DecidableEq, Repr

/-- The result dict built by `_execute_bash_command`:
`\x7b"command": ..., "returncode": ..., "stdout": ..., "stderr": ...\x7d`. -/
structure ExecResult where
  command : PyVal
  returncode : Int
  stdout : String
  stderr : String
  deriving DecidableEq, Repr

/-- `TaskMCPServer._execute_bash_command` (task_mcp_server.py lines 68-100):
on a completed process, package command/returncode/stdout/stderr; on any
exception from the spawn/wait path, return returncode `-1`, empty stdout and
the exception text as stderr.  The function is total: no exception escapes. -/
def execute_bash_command (outcome : SpawnOutcome) (command : PyVal) : ExecResult :=
  match outcome with
  | .completed rc out err => ⟨command, rc, out, err⟩
  | .raised e => ⟨command, -1, "", e⟩

/-! ### JSON serialization (`json.dumps(result, indent=2)`) -/

/-- One hexadecimal digit, lower case (as the CPython `json` module emits). -/
def hexDigit (n : Nat) : Char :=
  if n < 10 then Char.ofNat (48 + n) else Char.ofNat (87 + n)

/-- Four-digit hexadecimal rendering used in `\u....` escapes. -/
def hex4 (n : Nat) : String :=
  String.mk [hexDigit (n / 4096 % 16), hexDigit (n / 256 % 16),
             hexDigit (n / 16 % 16), hexDigit (n % 16)]

/-- CPython `json.dumps` escaping of one character (default `ensure_ascii=True`):
quote, backslash and the short control escapes get two-character forms, every
other char outside printable ASCII becomes `\uXXXX` (a surrogate pair above
the BMP), and printable ASCII passes through. -/
def pyJsonEscapeChar (c : Char) : String :=
  if c = '"' then "\\\""
  else if c = '\\' then "\\\\"
  else if c = '\n' then "\\n"
  else if c = '\t' then "\\t"
  else if c = '\r' then "\\r"
  else if c.toNat = 8 then "\\b"
  else if c.toNat = 12 then "\\f"
  else if c.toNat < 32 ∨ c.toNat > 126 then
    if c.toNat ≤ 65535 then "\\u" ++ hex4 c.toNat
    else
      "\\u" ++ hex4 (55296 + (c.toNat - 65536) / 1024) ++
      "\\u" ++ hex4 (56320 + (c.toNat - 65536) % 1024)
  else String.singleton c

/-- CPython `json.dumps` of a string value. -/
def pyJsonStr (s : String) : String :=
  "\"" ++ String.join (s.data.map pyJsonEscapeChar) ++ "\""

/-- JSON scalar values (the tool-result dict is a flat object of scalars). -/
inductive JScalar where
  | jstr (s : String)
  | jint (n : Int)
  | jbool (b : Bool)
  | jnull
  deriving DecidableEq, Repr

/-- A flat JSON object: an ordered field list with scalar values. -/
structure JObject where
  fields : List (String × JScalar)
  deriving DecidableEq, Repr

/-- How `json.dumps` renders a `PyVal` scalar. -/
def jsonOfPyVal : PyVal → JScalar
  | .vstr s => .jstr s
  | .vint n => .jint n
  | .vbool b => .jbool b
  | .vnone => .jnull

/-- The result dict as a JSON object: exactly the four fields
`command`, `returncode`, `stdout`, `stderr`, in insertion order. -/
def jsonOfResult (r : ExecResult) : JObject :=
  ⟨[("command", jsonOfPyVal r.command),
    ("returncode", .jint r.returncode),
    ("stdout", .jstr r.stdout),
    ("stderr", .jstr r.stderr)]⟩

/-- Key list of a JSON object. -/
def JObject.keys (o : JObject) : List String :=
  o.fields.map Prod.fst

/-- `json.dumps` of a scalar value. -/
def JScalar.dumps : JScalar → String
  | .jstr s => pyJsonStr s
  | .jint n => toString n
  | .jbool b => if b then "true" else "false"
  | .jnull => "null"

/-- `json.dumps(obj, indent=2)` of a flat object: open a brace, put each
`"key": value` on its own line indented two spaces, close the brace at column
zero.  (CPython renders an empty dict as braces with no newline.) -/
def JObject.dumps (o : JObject) : String :=
  match o.fields with
  | [] => "\x7b\x7d"
  | fields =>
      let items := fields.map
        (fun kv => "  " ++ pyJsonStr kv.1 ++ ": " ++ kv.2.dumps)
      "\x7b\n" ++ String.intercalate ",\n" items ++ "\n\x7d"

/-! ### `call_tool` dispatch (task_mcp_server.py lines 56-66) -/

/-- One `TextContent(type="text", text=...)` item. -/
structure TextContent where
  text : String
  deriving DecidableEq, Repr

/-- `call_tool(name, arguments)` instrumented with the number of sandbox spawn
attempts it makes (the source performs the spawn as a side effect; the model
returns the count alongside the content list).  Unknown tool names and a
missing/falsy `command` argument answer with a structured error content item
and attempt no spawn; otherwise the command is executed and the result dict is
serialized with `json.dumps(result, indent=2)` as the single content item. -/
def call_tool (outcome : SpawnOutcome) (name : String)
    (arguments : List (String × PyVal)) : List TextContent × Nat :=
  if name ≠ "execute_bash_command" then
    ([⟨"Error: Unknown tool " ++ name⟩], 0)
  else
    let command := pyGet arguments "command"
    if ¬ command.truthy then
      ([⟨"Error: Command is required"⟩], 0)
    else
      let result := execute_bash_command outcome command
      ([⟨(jsonOfResult result).dumps⟩], 1)

/-! ### Port allocator (a2a_adapter.py lines 23-32 and 74-76) -/

/-- The shared class-level counter `A2AAdapter._next_port`. -/
structure AllocatorState where
  nextPort : Nat
  deriving DecidableEq, Repr

/-- One allocation: inside the lock-guarded critical section, read the counter
and increment it (`port = _next_port; _next_port += 1`).  Total: never fails. -/
def allocate (s : AllocatorState) : Nat × AllocatorState :=
  (s.nextPort, ⟨s.nextPort + 1⟩)

/-- The ports returned by `n` consecutive (lock-serialized) allocations,
together with the final counter state. -/
def allocRun : AllocatorState → Nat → List Nat × AllocatorState
  | s, 0 => ([], s)
  | s, n + 1 =>
      let (p, s') := allocate s
      let (ps, s'') := allocRun s' n
      (p :: ps, s'')

/-! ### Readiness wait (a2a_adapter.py lines 84-96, task_mcp_server.py 146-154) -/

/-- Server-side state relevant to `is_ready`: whether `start()` has assigned
`self.uvicorn_server` (it is `None` until `start()` runs). -/
structure TaskMCPServerState where
  uvicornServerStarted : Bool
  deriving DecidableEq, Repr

/-- `TaskMCPServer.is_ready`: `False` before `start()` (uvicorn server is
`None`); afterwards the result of the TCP-connect probe, with a failed or
timed-out probe reported as `False`. -/
def is_ready (s : TaskMCPServerState) (probeSucceeds : Bool) : Bool :=
  if s.uvicornServerStarted then probeSucceeds else false

/-- The readiness-poll loop `for i in range(20): if is_ready(): break; sleep`:
returns whether some probe among the first `fuel` (indexed from `i`)
succeeded. -/
def readyLoop (probe : Nat → Bool) : Nat → Nat → Bool
  | _, 0 => false
  | i, fuel + 1 => if probe i then true else readyLoop probe (i + 1) fuel

/-- The control flow of `perform_task` around server startup: run the 20-probe
readiness loop, then — with no branch on its outcome — format the task message
and send it to the agent.  The pair records (readiness observed, proceeded to
send the task). -/
def performTaskFlow (probe : Nat → Bool) : Bool × Bool :=
  let ready := readyLoop probe 0 20
  (ready, true)

/-! ### Conversation driver (`ask_agent_to_solve`, agent.py lines 30-128) -/

/-- `RESPOND_ACTION_NAME` from `tau_bench.types`: the reserved action name
meaning "respond directly to the user". -/
def respondActionName : String := "respond"

/-- A tau-bench `Action` (named `TauAction` here because Mathlib already
declares `Action`): a tool name and its keyword arguments. -/
structure TauAction where
  name : String
  kwargs : List (String × PyVal)
  deriving DecidableEq, Repr

/-- One solver (white-agent) reply as seen by the driver: the context id
carried on the `Message` and the list of text parts extracted by
`get_text_parts`. -/
structure Reply where
  contextId : String
  textParts : List String
  deriving DecidableEq, Repr

/-- The assertion/exception that aborts `ask_agent_to_solve`. -/
inductive DriverError where
  | contextMismatch
  | badTextPartCount (n : Nat)
  | decodeFailure
  deriving DecidableEq, Repr

/-- Outcome of the driver loop: either the loop ended normally (done flag or
step budget exhausted) or an assertion aborted it; `calls` counts the solver
round-trips that were performed. -/
inductive DriverOutcome (E : Type) where
  | finished (env : E) (calls : Nat)
  | aborted (err : DriverError) (calls : Nat)
  deriving DecidableEq, Repr

/-- Context-id handling (agent.py lines 86-91): on the first reply adopt the
returned id; on every later reply assert it is unchanged. -/
def adoptContext (ctx : Option String) (replyId : String) :
    Except DriverError String :=
  match ctx with
  | none => .ok replyId
  | some c => if replyId = c then .ok c else .error .contextMismatch

/-- Text-part extraction (agent.py lines 93-96): exactly one text part is
required; zero or several is an assertion failure. -/
def extractText (parts : List String) : Except DriverError String :=
  match parts with
  | [t] => .ok t
  | l => .error (.badTextPartCount l.length)

/-- Next outbound message framing (agent.py lines 110-119): a tool action
frames the new observation as a tool-call result, the respond action frames it
as a user message (whitespace as in the source f-strings). -/
def nextMessage (actionName observation : String) : String :=
  if actionName ≠ respondActionName then
    "\nTool call result:\n" ++ observation ++ "\n            "
  else
    "\nUser message:\n" ++ observation ++ "\n            "

/-- The driver loop of `ask_agent_to_solve` (agent.py lines 61-121).
Oracles: `solver i msg` is the white-agent reply to the `i`-th outbound
message; `decode` is the `parse_tags` + `json.loads` + `Action(**d)` pipeline
(its code lives in `src.my_util` and `tau_bench`, outside this repository; a
`none` models any exception it raises); `envStep` is `env.step`, returning the
new environment, the observation and the done flag.  `i` counts solver calls
already made, `fuel` the remaining step budget. -/
def driveLoop {E : Type} (solver : Nat → String → Reply)
    (decode : String → Option TauAction)
    (envStep : E → TauAction → E × String × Bool) :
    Nat → Option String → String → E → Nat → DriverOutcome E
  | i, _, _, env, 0 => .finished env i
  | i, ctx, msg, env, fuel + 1 =>
    let r := solver i msg
    match adoptContext ctx r.contextId with
    | .error e => .aborted e (i + 1)
    | .ok c =>
      match extractText r.textParts with
      | .error e => .aborted e (i + 1)
      | .ok t =>
        match decode t with
        | none => .aborted .decodeFailure (i + 1)
        | some a =>
          let (env', obs, done) := envStep env a
          if done then .finished env' (i + 1)
          else driveLoop solver decode envStep (i + 1) (some c)
            (nextMessage a.name obs) env' fuel

/-- `ask_agent_to_solve` entry point: start with no context id, the initial
task-description message (built by the source from `env.wiki`,
`env.tools_info` and the reset observation) and the step budget
`max_num_steps` (default 30). -/
def ask_agent_to_solve {E : Type} (solver : Nat → String → Reply)
    (decode : String → Option TauAction)
    (envStep : E → TauAction → E × String × Bool)
    (initialMessage : String) (env0 : E) (maxNumSteps : Nat) : DriverOutcome E :=
  driveLoop solver decode envStep 0 none initialMessage env0 maxNumSteps

/-! ### Solver-side tool-call loop (`solve_task_with_llm_and_mcp`,
white_agent_helpers.py lines 90-181) -/

/-- One requested tool call from the reasoning backend. -/
structure ToolCall where
  id : String
  name : String
  argumentsJson : String
  deriving DecidableEq, Repr

/-- One reasoning-backend reply (`assistant_msg`): optional text content and
the requested tool calls (`[]` models both `None` and an empty list). -/
structure AssistantMsg where
  content : Option String
  toolCalls : List ToolCall
  deriving DecidableEq, Repr

/-- A transcript message, as appended to `messages`. -/
inductive ChatMsg where
  | system (content : String)
  | user (content : String)
  | assistant (content : Option String) (toolCalls : List ToolCall)
  | tool (toolCallId : String) (content : String)
  deriving DecidableEq, Repr

/-- The dict `call_mcp_tool` hands back: either a dict carrying an `error`
key, or the parsed tool-result object whose fields are read with
`result.get(...)` (hence each field is optional). -/
inductive MCPToolResult where
  | errResult (msg : String)
  | okResult (command : Option String) (returncode : Option Int)
      (stdout stderr : Option String)
  deriving DecidableEq, Repr

/-- Tool-result formatting (white_agent_helpers.py lines 167-175): an `error`
key short-circuits; otherwise command and exit code with `N/A` defaults, then
stdout/stderr sections only when present and non-empty (Python truthiness of
`result.get(...)`). -/
def formatToolResult : MCPToolResult → String
  | .errResult m => "Error: " ++ m
  | .okResult cmd rc out errS =>
      let s1 := "Command: " ++ cmd.getD "N/A" ++ "\n"
      let s2 := s1 ++ "Exit code: " ++
        (match rc with | some n => toString n | none => "N/A") ++ "\n"
      let s3 := match out with
        | some o => if o ≠ "" then s2 ++ "Output:\n" ++ o else s2
        | none => s2
      match errS with
      | some e => if e ≠ "" then s3 ++ "Error:\n" ++ e else s3
      | none => s3

/-- Python `content or "Task completed."`: the text when present and
non-empty, else the fallback. -/
def pyOrStr (s : Option String) (fallback : String) : String :=
  match s with
  | some t => if t = "" then fallback else t
  | none => fallback

/-- What one run of the loop did: the returned text, how many backend rounds
(chat-completion requests) ran, and how many tool invocations were issued
against the MCP server. -/
structure SolveTrace where
  finalText : String
  backendRounds : Nat
  toolInvocations : Nat
  deriving DecidableEq, Repr

/-- The iteration loop (lines 119-181), instrumented with round and
tool-invocation counts.  Oracles: `backend` is the chat-completion call on the
current transcript; `toolExec` is `call_mcp_tool` (argument parsing plus the
MCP round-trip).  Zero remaining iterations returns the fixed limit message;
a reply with no tool calls returns `content or "Task completed."`; otherwise
every requested call is executed, its formatted result appended as a tool
message, and the loop continues. -/
def solveLoop (backend : List ChatMsg → AssistantMsg)
    (toolExec : ToolCall → MCPToolResult) :
    List ChatMsg → Nat → SolveTrace
  | _, 0 => ⟨"Task completed (reached iteration limit).", 0, 0⟩
  | msgs, fuel + 1 =>
    let am := backend msgs
    let msgs' := msgs ++ [ChatMsg.assistant am.content am.toolCalls]
    match am.toolCalls with
    | [] => ⟨pyOrStr am.content "Task completed.", 1, 0⟩
    | tc :: tcs =>
      let calls := tc :: tcs
      let toolMsgs := calls.map
        (fun c => ChatMsg.tool c.id (formatToolResult (toolExec c)))
      let rest := solveLoop backend toolExec (msgs' ++ toolMsgs) fuel
      ⟨rest.finalText, rest.backendRounds + 1, rest.toolInvocations + calls.length⟩

/-- The system prompt installed ahead of the user input (lines 102-117). -/
def solveSystemPrompt : String :=
  "You are a helpful assistant being evaluated on Terminal-Bench.\n\nYour goal is to complete terminal tasks by executing bash commands.\n\nGuidelines:\n- Break down complex tasks into simple steps\n- Execute one command at a time and check the result\n- If a command fails, analyze the error and try a different approach\n- When complete, provide a clear summary\n- Be concise but thorough"

/-- `solve_task_with_llm_and_mcp`: build the initial transcript from the
system prompt and the user input, then run the iteration loop with the
`max_iterations` budget (default 10 in the source). -/
def solve_task_with_llm_and_mcp (backend : List ChatMsg → AssistantMsg)
    (toolExec : ToolCall → MCPToolResult)
    (userInput : String) (maxIterations : Nat) : SolveTrace :=
  solveLoop backend toolExec
    [ChatMsg.system solveSystemPrompt, ChatMsg.user userInput] maxIterations

/-! ## Theorems -/

/-- Unfolding lemma: `allocRun` starting at counter `b` returns the `n`
consecutive ports `b, b+1, ...` and leaves the counter at `b + n`. -/
theorem allocRun_eq (b n : Nat) :
    allocRun ⟨b⟩ n = ((List.range n).map (b + ·), ⟨b + n⟩) := by
  induction n generalizing b with
  | zero => simp [allocRun]
  | succ n ih =>
      simp only [allocRun, allocate, ih (b + 1), List.range_succ_eq_map]
      refine Prod.ext ?_ ?_
      · simp only [List.map_map, Function.comp, Prod.fst]
        refine List.ext_get (by simp) ?_
        intro i h1 h2
        simp only [List.get_eq_getElem, List.getElem_cons_zero]
        cases i with
        | zero => simp
        | succ j =>
            simp [List.getElem_map, List.getElem_range]
            omega
      · simp; omega

/-- C1: for every command string and every sandbox spawn outcome, the command
executor returns a `CommandResult` (it is a total function: no exception
propagates), the original command is echoed in the `command` field, and when
the spawn/wait path raised with text `e` the result is exit code `-1`, empty
stdout and `e` in stderr. -/
theorem C1_executor_total_and_exception_as_data
    (outcome : SpawnOutcome) (cmd : String) :
    (execute_bash_command outcome (.vstr cmd)).command = .vstr cmd ∧
    (∀ e, outcome = .raised e →
      execute_bash_command outcome (.vstr cmd) = ⟨.vstr cmd, -1, "", e⟩) := by
  constructor
  · cases outcome <;> rfl
  · intro e h
    subst h
    rfl

theorem C1_executor_total_and_exception_as_data_witness :
    (execute_bash_command (.raised "docker not found") (.vstr "ls")).command
      = .vstr "ls" ∧
    execute_bash_command (.raised "docker not found") (.vstr "ls")
      = ⟨.vstr "ls", -1, "", "docker not found"⟩ :=
  ⟨(C1_executor_total_and_exception_as_data (.raised "docker not found") "ls").1,
   (C1_executor_total_and_exception_as_data (.raised "docker not found") "ls").2
     "docker not found" rfl⟩

/-- C2: any number `n` of lock-serialized allocations from base `b` all
succeed (exactly `n` ports come back), and the returned ports are strictly
increasing in call order, pairwise distinct, and each at least the base. -/
theorem C2_allocator_monotone_distinct (b n : Nat) :
    (allocRun ⟨b⟩ n).1.length = n ∧
    (allocRun ⟨b⟩ n).1.Pairwise (· < ·) ∧
    (allocRun ⟨b⟩ n).1.Pairwise (· ≠ ·) ∧
    ∀ p ∈ (allocRun ⟨b⟩ n).1, b ≤ p := by
  rw [allocRun_eq]
  refine ⟨by simp, ?_, ?_, ?_⟩
  · rw [List.pairwise_map]
    exact (List.pairwise_lt_range n).imp (by omega)
  · rw [List.pairwise_map]
    exact (List.pairwise_lt_range n).imp (by omega)
  · intro p hp
    simp only [List.mem_map, List.mem_range] at hp
    omega

theorem C2_allocator_monotone_distinct_witness :
    (allocRun ⟨7000⟩ 4).1.length = 4 ∧
    (allocRun ⟨7000⟩ 4).1.Pairwise (· < ·) ∧
    (allocRun ⟨7000⟩ 4).1.Pairwise (· ≠ ·) ∧
    ∀ p ∈ (allocRun ⟨7000⟩ 4).1, 7000 ≤ p :=
  C2_allocator_monotone_distinct 7000 4

/-- C6: when executing the command fails at the execution layer (the
spawn/wait path raised with non-empty error text), the executor returns —
rather than raises — a result with exit code `-1` and non-empty stderr. -/
theorem C6_nonexistent_command_result (cmd e : String) (he : e ≠ "") :
    (execute_bash_command (.raised e) (.vstr cmd)).returncode = -1 ∧
    (execute_bash_command (.raised e) (.vstr cmd)).stderr = e ∧
    (execute_bash_command (.raised e) (.vstr cmd)).stderr ≠ "" :=
  ⟨rfl, rfl, he⟩

theorem C6_nonexistent_command_result_witness :
    (execute_bash_command (.raised "No such file or directory: docker")
      (.vstr "frobnicate")).returncode = -1 ∧
    (execute_bash_command (.raised "No such file or directory: docker")
      (.vstr "frobnicate")).stderr = "No such file or directory: docker" ∧
    (execute_bash_command (.raised "No such file or directory: docker")
      (.vstr "frobnicate")).stderr ≠ "" :=
  C6_nonexistent_command_result "frobnicate" "No such file or directory: docker"
    (by decide)

/-- C8: every requested tool name other than `execute_bash_command` is
answered with the single structured "unknown tool" error content item — a
normal tool result, not a raised exception (the handler is total) — and no
sandbox spawn is attempted. -/
theorem C8_unknown_tool_structured_error (outcome : SpawnOutcome)
    (name : String) (arguments : List (String × PyVal))
    (h : name ≠ "execute_bash_command") :
    call_tool outcome name arguments
      = ([⟨"Error: Unknown tool " ++ name⟩], 0) := by
  simp [call_tool, h]

theorem C8_unknown_tool_structured_error_witness :
    call_tool (.completed 0 "" "") "delete_everything" [("command", .vstr "x")]
      = ([⟨"Error: Unknown tool delete_everything"⟩], 0) :=
  C8_unknown_tool_structured_error (.completed 0 "" "") "delete_everything"
    [("command", .vstr "x")] (by decide)

/-- C10: a call to `execute_bash_command` whose arguments lack the `command`
key or bind it to a falsy value is answered with the single error content
`Error: Command is required`, and no process is spawned in the sandbox (zero
spawn attempts, so the sandbox state is untouched). -/
theorem C10_missing_command_no_spawn (outcome : SpawnOutcome)
    (arguments : List (String × PyVal))
    (h : (pyGet arguments "command").truthy = false) :
    call_tool outcome "execute_bash_command" arguments
      = ([⟨"Error: Command is required"⟩], 0) := by
  simp [call_tool, h]

theorem C10_missing_command_no_spawn_witness :
    call_tool (.completed 0 "" "") "execute_bash_command" []
      = ([⟨"Error: Command is required"⟩], 0) ∧
    call_tool (.completed 0 "" "") "execute_bash_command"
      [("command", .vstr "")] = ([⟨"Error: Command is required"⟩], 0) ∧
    call_tool (.completed 0 "" "") "execute_bash_command"
      [("command", .vbool false)] = ([⟨"Error: Command is required"⟩], 0) :=
  ⟨C10_missing_command_no_spawn (.completed 0 "" "") [] (by decide),
   C10_missing_command_no_spawn (.completed 0 "" "") [("command", .vstr "")]
     (by decide),
   C10_missing_command_no_spawn (.completed 0 "" "")
     [("command", .vbool false)] (by decide)⟩

/-- C9: every successful command execution (truthy string command, completed
process) is answered with exactly one content item, whose text is the
`json.dumps(..., indent=2)` serialization of the result object, and that
object has exactly the fields `command`, `returncode`, `stdout`, `stderr`. -/
theorem C9_result_encoding (rc : Int) (out err : String)
    (arguments : List (String × PyVal)) (cmd : String)
    (hc : pyGet arguments "command" = .vstr cmd) (hne : cmd ≠ "") :
    call_tool (.completed rc out err) "execute_bash_command" arguments
      = ([⟨(jsonOfResult ⟨.vstr cmd, rc, out, err⟩).dumps⟩], 1) ∧
    (jsonOfResult ⟨.vstr cmd, rc, out, err⟩).keys
      = ["command", "returncode", "stdout", "stderr"] := by
  constructor
  · simp [call_tool, hc, PyVal.truthy, hne, execute_bash_command]
  · rfl

theorem C9_result_encoding_witness :
    call_tool (.completed 0 "hi\n" "") "execute_bash_command"
      [("command", .vstr "echo hi")]
      = ([⟨(jsonOfResult ⟨.vstr "echo hi", 0, "hi\n", ""⟩).dumps⟩], 1) ∧
    (jsonOfResult ⟨.vstr "echo hi", 0, "hi\n", ""⟩).keys
      = ["command", "returncode", "stdout", "stderr"] :=
  C9_result_encoding 0 "hi\n" "" [("command", .vstr "echo hi")] "echo hi"
    rfl (by decide)

/-- Helper: a backend that requests a tool call on every round drives the
loop through all its fuel and into the fixed iteration-limit message, with
one backend round per unit of fuel. -/
theorem solveLoop_all_tool_calls (backend : List ChatMsg → AssistantMsg)
    (toolExec : ToolCall → MCPToolResult)
    (h : ∀ m, (backend m).toolCalls ≠ []) :
    ∀ (fuel : Nat) (msgs : List ChatMsg),
      (solveLoop backend toolExec msgs fuel).finalText
        = "Task completed (reached iteration limit)." ∧
      (solveLoop backend toolExec msgs fuel).backendRounds = fuel := by
  intro fuel
  induction fuel with
  | zero => intro msgs; exact ⟨rfl, rfl⟩
  | succ f ih =>
      intro msgs
      cases hb : (backend msgs).toolCalls with
      | nil => exact absurd hb (h msgs)
      | cons tc tcs =>
          simp only [solveLoop, hb]
          exact ⟨(ih _).1, by rw [(ih _).2]⟩

/-- C4: for every iteration budget `maxIterations ≥ 1`, a backend that
requests at least one tool call on every round makes the loop run exactly
`maxIterations` backend rounds and then return the fixed string
`Task completed (reached iteration limit).` (a value, not an error). -/
theorem C4_iteration_limit_message (backend : List ChatMsg → AssistantMsg)
    (toolExec : ToolCall → MCPToolResult) (userInput : String)
    (maxIterations : Nat) (_h1 : 1 ≤ maxIterations)
    (h : ∀ m, (backend m).toolCalls ≠ []) :
    (solve_task_with_llm_and_mcp backend toolExec userInput
        maxIterations).finalText
      = "Task completed (reached iteration limit)." ∧
    (solve_task_with_llm_and_mcp backend toolExec userInput
        maxIterations).backendRounds = maxIterations :=
  solveLoop_all_tool_calls backend toolExec h maxIterations _

theorem C4_iteration_limit_message_witness :
    1 ≤ 3 ∧
    (solve_task_with_llm_and_mcp
        (fun _ => ⟨none, [⟨"id1", "execute_bash_command", "\x7b\x7d"⟩]⟩)
        (fun _ => .errResult "offline") "do the task" 3).finalText
      = "Task completed (reached iteration limit)." ∧
    (solve_task_with_llm_and_mcp
        (fun _ => ⟨none, [⟨"id1", "execute_bash_command", "\x7b\x7d"⟩]⟩)
        (fun _ => .errResult "offline") "do the task" 3).backendRounds = 3 :=
  ⟨by decide,
   (C4_iteration_limit_message _ _ "do the task" 3 (by decide)
     (fun m => by decide)).1,
   (C4_iteration_limit_message _ _ "do the task" 3 (by decide)
     (fun m => by decide)).2⟩

/-- C5 counterexample: a backend that requests zero tool calls on the first
iteration but whose reply text is the empty string makes the loop return the
fallback `Task completed.` — not that reply via text (the empty string) —
so the claim as stated fails at this input. -/
theorem C5_counterexample_empty_reply_text :
    ((fun _ : List ChatMsg => (⟨some "", []⟩ : AssistantMsg))
        [ChatMsg.system solveSystemPrompt,
         ChatMsg.user "task"]).toolCalls = [] ∧
    (solve_task_with_llm_and_mcp (fun _ => ⟨some "", []⟩)
        (fun _ => .errResult "") "task" 10).finalText = "Task completed." ∧
    (solve_task_with_llm_and_mcp (fun _ => ⟨some "", []⟩)
        (fun _ => .errResult "") "task" 10).finalText ≠ "" :=
  ⟨rfl, rfl, by decide⟩

/-- C5 (amended): if the backend requests zero tool calls on the first
iteration, the loop returns immediately — one backend round, zero tool
invocations — with that reply text when it is present and non-empty, and
with the fixed fallback `Task completed.` when the text is missing or
empty. -/
theorem C5_no_tool_calls_returns_immediately
    (backend : List ChatMsg → AssistantMsg)
    (toolExec : ToolCall → MCPToolResult) (userInput : String)
    (maxIterations : Nat) (h1 : 1 ≤ maxIterations)
    (h : (backend [ChatMsg.system solveSystemPrompt,
          ChatMsg.user userInput]).toolCalls = []) :
    solve_task_with_llm_and_mcp backend toolExec userInput maxIterations
      = ⟨pyOrStr (backend [ChatMsg.system solveSystemPrompt,
            ChatMsg.user userInput]).content "Task completed.", 1, 0⟩ := by
  obtain ⟨f, rfl⟩ : ∃ f, maxIterations = f + 1 :=
    ⟨maxIterations - 1, (Nat.succ_pred_eq_of_pos h1).symm⟩
  simp only [solve_task_with_llm_and_mcp, solveLoop, h]

theorem C5_no_tool_calls_returns_immediately_witness :
    solve_task_with_llm_and_mcp
        (fun _ => ⟨some "the answer is 42", []⟩)
        (fun _ => .errResult "offline") "task" 10
      = ⟨"the answer is 42", 1, 0⟩ :=
  C5_no_tool_calls_returns_immediately
    (fun _ => ⟨some "the answer is 42", []⟩)
    (fun _ => .errResult "offline") "task" 10 (by decide) rfl

/-- Helper: if every probe in the window fails, the readiness loop reports
not-ready. -/
theorem readyLoop_all_fail (probe : Nat → Bool) :
    ∀ (fuel i : Nat), (∀ j, i ≤ j → j < i + fuel → probe j = false) →
      readyLoop probe i fuel = false := by
  intro fuel
  induction fuel with
  | zero => intro i _; rfl
  | succ f ih =>
      intro i h
      have hp : probe i = false := h i le_rfl (by omega)
      simp only [readyLoop, hp, Bool.false_eq_true, if_false]
      exact ih (i + 1) fun j hj hj2 => h j (by omega) (by omega)

/-- Helper: the readiness loop reports ready only if some probe in its
bounded window succeeded (it never consults probes outside the budget). -/
theorem readyLoop_true_exists (probe : Nat → Bool) :
    ∀ (fuel i : Nat), readyLoop probe i fuel = true →
      ∃ j, i ≤ j ∧ j < i + fuel ∧ probe j = true := by
  intro fuel
  induction fuel with
  | zero => intro i h; exact absurd h (by simp [readyLoop])
  | succ f ih =>
      intro i h
      cases hp : probe i with
      | true => exact ⟨i, le_rfl, by omega, hp⟩
      | false =>
          simp only [readyLoop, hp, Bool.false_eq_true, if_false] at h
          obtain ⟨j, h1, h2, h3⟩ := ih (i + 1) h
          exact ⟨j, by omega, by omega, h3⟩

/-- C7 counterexample: with every probe failing, the 20-probe readiness loop
reports not-ready, yet `perform_task` still proceeds to send the task to the
solver — the code does not treat exhausted probes as a startup failure, so
the claim as stated fails at this input. -/
theorem C7_counterexample_proceeds_when_never_ready :
    readyLoop (fun _ => false) 0 20 = false ∧
    performTaskFlow (fun _ => false) = (false, true) :=
  ⟨rfl, rfl⟩

/-- C7 (amended): before `start()` the server reports not-ready regardless of
the probe; a failed probe is treated as not-yet-ready and retried only within
the bounded budget of 20 (readiness can only be reported from a probe inside
that window); but when every probe in the budget fails, `perform_task` does
not treat startup as failed — it proceeds to send the task anyway. -/
theorem C7_readiness_bounded_but_not_enforced (probe : Nat → Bool) (pr : Bool)
    (hfail : ∀ i, i < 20 → probe i = false) :
    is_ready ⟨false⟩ pr = false ∧
    performTaskFlow probe = (false, true) ∧
    (∀ q : Nat → Bool, readyLoop q 0 20 = true →
      ∃ j, j < 20 ∧ q j = true) := by
  refine ⟨rfl, ?_, ?_⟩
  · have : readyLoop probe 0 20 = false :=
      readyLoop_all_fail probe 20 0 fun j _ hj => hfail j (by omega)
    simp [performTaskFlow, this]
  · intro q hq
    obtain ⟨j, _, h2, h3⟩ := readyLoop_true_exists q 20 0 hq
    exact ⟨j, by omega, h3⟩

theorem C7_readiness_bounded_but_not_enforced_witness :
    is_ready ⟨false⟩ true = false ∧
    performTaskFlow (fun _ => false) = (false, true) :=
  ⟨(C7_readiness_bounded_but_not_enforced (fun _ => false) true
      (fun _ _ => rfl)).1,
   (C7_readiness_bounded_but_not_enforced (fun _ => false) true
      (fun _ _ => rfl)).2.1⟩

/-- Helper: a text-part list that is not a singleton makes `extractText`
fail with the assertion error carrying its length. -/
theorem extractText_of_length_ne_one (parts : List String)
    (h : parts.length ≠ 1) :
    extractText parts = .error (.badTextPartCount parts.length) := by
  match parts with
  | [] => rfl
  | [t] => exact absurd rfl h
  | a :: b :: l => rfl

/-- Helper for C3: if the solver replies with context id `c`, a single
decodable text part and a not-done environment step for the first `k` rounds,
and round `k` violates the protocol (different context id, or a text-part
count other than one), then the driver loop — entered at round `i` with `k - i`
good rounds remaining — aborts at round `k` with the matching assertion error,
having made exactly `k + 1` solver calls. -/
theorem driveLoop_aborts_at_violation {E : Type}
    (solver : Nat → String → Reply) (decode : String → Option TauAction)
    (envStep : E → TauAction → E × String × Bool) (c : String) (k : Nat)
    (hgood : ∀ j msg, j < k → (solver j msg).contextId = c ∧
      ∃ t a, (solver j msg).textParts = [t] ∧ decode t = some a ∧
        ∀ env, (envStep env a).2.2 = false)
    (hbad : ∀ msg, (solver k msg).contextId ≠ c ∨
      (solver k msg).textParts.length ≠ 1) :
    ∀ (d i : Nat), i + d = k →
      ∀ (ctx : Option String) (msg : String) (env : E) (fuel : Nat),
        d + 1 ≤ fuel → (ctx = none ∨ ctx = some c) → (d = 0 → ctx = some c) →
        ∃ e, driveLoop solver decode envStep i ctx msg env fuel
            = .aborted e (k + 1) ∧
          e ≠ .decodeFailure ∧
          (e = .contextMismatch ∨ ∃ n, n ≠ 1 ∧ e = .badTextPartCount n) := by
  intro d
  induction d with
  | zero =>
      intro i hi ctx msg env fuel hfuel _ hctx0
      obtain rfl : ctx = some c := hctx0 rfl
      obtain ⟨f, rfl⟩ : ∃ f, fuel = f + 1 := ⟨fuel - 1, by omega⟩
      have hik : i = k := by omega
      by_cases hcid : (solver i msg).contextId = c
      · rcases hbad msg with hctx | hparts
        · rw [← hik] at hctx
          exact absurd hcid hctx
        · rw [← hik] at hparts
          refine ⟨.badTextPartCount (solver i msg).textParts.length,
            ?_, by simp, Or.inr ⟨_, hparts, rfl⟩⟩
          rw [← hik]
          simp only [driveLoop, adoptContext, hcid, eq_self_iff_true,
            if_true, extractText_of_length_ne_one _ hparts]
      · refine ⟨.contextMismatch, ?_, by simp, Or.inl rfl⟩
        rw [← hik]
        simp only [driveLoop, adoptContext, if_neg hcid]
  | succ d ih =>
      intro i hi ctx msg env fuel hfuel hctx _
      have hik : i < k := by omega
      obtain ⟨hcid, t, a, hparts, hdec, hdone⟩ := hgood i msg hik
      obtain ⟨f, rfl⟩ : ∃ f, fuel = f + 1 := ⟨fuel - 1, by omega⟩
      have hstep := hdone env
      rcases hp : envStep env a with ⟨env', obs, done⟩
      rw [hp] at hstep
      simp only at hstep
      subst hstep
      obtain ⟨e, he, hne, hkind⟩ := ih (i + 1) (by omega) (some c)
        (nextMessage a.name obs) env' f (by omega) (Or.inr rfl)
        (fun _ => rfl)
      refine ⟨e, ?_, hne, hkind⟩
      rcases hctx with rfl | rfl <;>
        simpa only [driveLoop, adoptContext, hcid, hparts, extractText, hdec,
          hp, eq_self_iff_true, if_true, Bool.false_eq_true, if_false]
          using he

/-- C3: the context id of the first solver reply is adopted; if every reply
before round `k ≥ 1` carries that id, exactly one text part, a decodable
decision and a not-done environment step, and the reply at round `k` (within
the step budget) carries a different context id or a text-part count other
than one, then the driver aborts right there — `k + 1` solver calls, no
retry — with the corresponding protocol-assertion error. -/
theorem C3_protocol_violation_aborts {E : Type}
    (solver : Nat → String → Reply) (decode : String → Option TauAction)
    (envStep : E → TauAction → E × String × Bool)
    (msg0 : String) (env0 : E) (c : String) (k fuel : Nat)
    (hk : 1 ≤ k) (hfuel : k < fuel)
    (_hfirst : ∀ msg, (solver 0 msg).contextId = c)
    (hgood : ∀ j msg, j < k → (solver j msg).contextId = c ∧
      ∃ t a, (solver j msg).textParts = [t] ∧ decode t = some a ∧
        ∀ env, (envStep env a).2.2 = false)
    (hbad : ∀ msg, (solver k msg).contextId ≠ c ∨
      (solver k msg).textParts.length ≠ 1) :
    ∃ e, ask_agent_to_solve solver decode envStep msg0 env0 fuel
        = .aborted e (k + 1) ∧
      e ≠ .decodeFailure ∧
      (e = .contextMismatch ∨ ∃ n, n ≠ 1 ∧ e = .badTextPartCount n) :=
  driveLoop_aborts_at_violation solver decode envStep c k hgood hbad k 0
    (by omega) none msg0 env0 fuel (by omega) (Or.inl rfl)
    (fun hd => absurd hd.symm (by omega))

theorem C3_protocol_violation_aborts_witness :
    ∃ e, ask_agent_to_solve (E := Unit)
        (fun i _ => if i = 0 then ⟨"ctx-1", ["step"]⟩ else ⟨"ctx-2", ["step"]⟩)
        (fun _ => some ⟨"tool_a", []⟩)
        (fun _ _ => ((), "obs", false)) "initial task" () 10
        = .aborted e 2 ∧
      e ≠ .decodeFailure ∧
      (e = .contextMismatch ∨ ∃ n, n ≠ 1 ∧ e = .badTextPartCount n) :=
  C3_protocol_violation_aborts
    (fun i _ => if i = 0 then ⟨"ctx-1", ["step"]⟩ else ⟨"ctx-2", ["step"]⟩)
    (fun _ => some ⟨"tool_a", []⟩)
    (fun _ _ => ((), "obs", false)) "initial task" () "ctx-1" 1 10
    (by decide) (by decide)
    (fun _ => rfl)
    (fun j msg hj => by
      obtain rfl : j = 0 := by omega
      exact ⟨rfl, "step", ⟨"tool_a", []⟩, rfl, rfl, fun _ => rfl⟩)
    (fun _ => Or.inl
      (by decide : (Reply.contextId ⟨"ctx-2", ["step"]⟩) ≠ "ctx-1"))
